import Mathlib

/-!
Verification of the query-routing RAG pipeline in `src/backend/rag_engine.py`
(class `RAGBackend`).  The Python code is shallowly embedded: pure helper
functions become Lean functions, LLM / retriever calls become function fields
of an `Env` record returning `Except` (an exception) or a value, and the
number of collaborator invocations is tracked explicitly in a `Counts`
record so that "component X is never invoked" becomes a provable statement.
-/

set_option autoImplicit false

namespace RagEngine

/-- Embedding of Python `str.strip()`: drop leading and trailing whitespace
characters.  Defined structurally over the character list so that concrete
instances evaluate inside the kernel. -/
def pyStrip (s : String) : String :=
  String.mk (((s.data.dropWhile Char.isWhitespace).reverse.dropWhile
      Char.isWhitespace).reverse)

/-- A retrieved document (LangChain `Document`): `page_content` plus the
optional `source` entry of its metadata dict (`doc.metadata.get("source", ...)`
yields the default when the key is absent, modelled by `Option`). -/
structure Doc where
  content : String
  metadataSource : Option String
  deriving DecidableEq, Repr, Inhabited

/-- The three classification labels of the Pydantic model `RouteQuery`
(`Literal["pertinente", "non_pertinente", "conversazionale"]`). -/
inductive Destination where
  | pertinente
  | non_pertinente
  | conversazionale
  deriving DecidableEq, Repr

/-- The Pydantic model `RouteQuery` produced by
`llm_router.with_structured_output(RouteQuery)`: its single field is
constrained by the schema to one of the three labels. -/
structure RouteQuery where
  destination : Destination
  deriving DecidableEq, Repr

/-- The normalized result dict `{"answer": ..., "source_documents": [...]}`
returned by `get_response` / `_normalize_response`. -/
structure AnswerResult where
  answer : String
  source_documents : List Doc
  deriving DecidableEq, Repr

/-! ## Knowledge scope (`_load_knowledge_scope`, `_create_default_knowledge_scope`,
`reload_knowledge_scope`, `_format_knowledge_scope`) -/

/-- State of the `knowledge_scope.json` file as seen by `open` + `json.load` +
`data.get("scope", [])`: the file may be absent (`FileNotFoundError`),
malformed (`json.JSONDecodeError`), or well-formed JSON whose optional
`scope` key holds a list of topic strings (`none` models a missing key,
which `data.get("scope", [])` turns into the empty list). -/
inductive ScopeFile where
  | absent
  | malformed
  | wellFormed (scope : Option (List String))
  deriving DecidableEq, Repr

/-- The built-in default list of `_create_default_knowledge_scope`. -/
def defaultKnowledgeScope : List String :=
  ["Normative alimentari", "Etichettatura prodotti", "Sicurezza alimentare",
   "Additivi e conservanti", "Controlli sanitari", "Legislazione europea",
   "Regolamenti ministeriali", "Certificazioni qualità"]

/-- Embedding of `_load_knowledge_scope` (startup load): reads
`data.get("scope", [])`; an empty result, a missing file or a JSON parse
error all fall back to `_create_default_knowledge_scope`. -/
def loadKnowledgeScope : ScopeFile → List String
  | ScopeFile.absent => defaultKnowledgeScope
  | ScopeFile.malformed => defaultKnowledgeScope
  | ScopeFile.wellFormed s =>
      let scope := s.getD []
      if scope = [] then defaultKnowledgeScope else scope

/-- Embedding of `reload_knowledge_scope`: on any exception (absent or
malformed file) the `except` clause only logs, so the previously loaded
scope is kept; otherwise the scope is replaced by `data.get("scope", [])`
with no emptiness check and no default fallback. -/
def reloadKnowledgeScope (file : ScopeFile) (current : List String) : List String :=
  match file with
  | ScopeFile.absent => current
  | ScopeFile.malformed => current
  | ScopeFile.wellFormed s => s.getD []

/-- The `"\n".join(f"• ..." ...)` rendering used by `_format_knowledge_scope`. -/
def bulletedList (items : List String) : String :=
  String.intercalate "\n" (items.map (fun item => "• " ++ item))

/-- Embedding of `_format_knowledge_scope`: empty scope yields a fixed
message; otherwise the first 8 topics are rendered as bullets and a
"... e altri N argomenti correlati" line is appended when the scope is
longer than 8. -/
def formatKnowledgeScope (scope : List String) : String :=
  if scope = [] then "Nessun ambito specifico definito."
  else
    let scopeItems := scope.take 8
    let formatted := bulletedList scopeItems
    if 8 < scope.length then
      formatted ++ "\n• ... e altri " ++ toString (scope.length - 8) ++ " argomenti correlati"
    else formatted

/-! ## Document formatting (`format_docs_with_ids` inside `_build_rag_chain`) -/

/-- Embedding of `os.path.basename` for POSIX paths
(`p[p.rfind("/") + 1:]`): the characters after the last `/`. -/
def basename (path : String) : String :=
  String.mk ((path.data.reverse.takeWhile (fun c => c ≠ '/')).reverse)

/-- The per-document source label: `doc.metadata.get("source", "Fonte
sconosciuta")`, passed through `os.path.basename` unless it is the default. -/
def sourceName (d : Doc) : String :=
  let sourceInfo := d.metadataSource.getD "Fonte sconosciuta"
  if sourceInfo ≠ "Fonte sconosciuta" then basename sourceInfo else sourceInfo

/-- One formatted context block:
`f"Contenuto dal documento [doc-(i+1)] (source_name):\n(content.strip())"`. -/
def docEntry (idx : Nat) (d : Doc) : String :=
  "Contenuto dal documento [doc-" ++ toString idx ++ "] (" ++ sourceName d ++ "):\n"
    ++ pyStrip d.content

/-- The `for i, doc in enumerate(docs)` loop of `format_docs_with_ids`,
carrying the running 0-based counter `i` and labelling each document with
`i + 1`. -/
def docEntriesAux (i : Nat) : List Doc → List String
  | [] => []
  | d :: ds => docEntry (i + 1) d :: docEntriesAux (i + 1) ds

/-- The list of formatted blocks produced by `format_docs_with_ids`
before joining. -/
def docEntries (docs : List Doc) : List String :=
  docEntriesAux 0 docs

/-- Embedding of `format_docs_with_ids`: fixed marker on an empty list,
otherwise the numbered blocks joined by the separator. -/
def formatDocsWithIds (docs : List Doc) : String :=
  if docs = [] then "Nessun documento trovato."
  else String.intercalate "\n\n---\n\n" (docEntries docs)

/-! ## The chain architecture (`_build_chain_architecture` and the chains) -/

/-- Invocation counters for the three external collaborators: the router
LLM (classification), the compression retriever, and the main LLM.  They
make "component X is never invoked" a provable statement. -/
structure Counts where
  classifierCalls : Nat
  retrieverCalls : Nat
  mainCalls : Nat
  deriving DecidableEq, Repr

def Counts.zero : Counts := ⟨0, 0, 0⟩

def Counts.add (a b : Counts) : Counts :=
  ⟨a.classifierCalls + b.classifierCalls,
   a.retrieverCalls + b.retrieverCalls,
   a.mainCalls + b.mainCalls⟩

/-- The external collaborators held by a constructed `full_chain`: the
structured-output router call (which may raise, or return no `RouteQuery`
at all — the `None` the code guards against), the compression retriever
(which may raise) and the main LLM (which may raise), plus the loaded
knowledge scope used by the refusal chain.  `Except String` models a
raised Python exception carrying its message. -/
structure Env where
  classifyRaw : String → Except String (Option RouteQuery)
  retrieve : String → Except String (List Doc)
  llmMain : String → Except String String
  knowledgeScope : List String

/-- The raw value a branch of the chain hands to `_normalize_response`:
either a dict (the RAG chain's `.pick(["answer", "source_documents"])`
output, with `Option` marking which keys are present for `dict.get`) or a
non-dict value represented by its `str(...)` rendering. -/
inductive RawOutput where
  | dict (answer : Option String) (source_documents : Option (List Doc))
  | other (str : String)
  deriving Repr

/-- Prompt of `_build_conversational_chain` with `query` substituted. -/
def conversationalPrompt (query : String) : String :=
  "Sei un assistente AI cordiale di nome Agente AI specializzato in normative alimentari. "
    ++ "Rispondi in modo amichevole e conciso alla seguente interazione: " ++ query

/-- Prompt of `_build_refusal_chain` with `query` and the formatted
knowledge scope substituted. -/
def refusalPrompt (query knowledgeScope : String) : String :=
  "Sei un assistente AI specializzato in legislazione alimentare.\n"
    ++ "Non sono in grado di rispondere alla domanda: \x27" ++ query ++ "\x27\n\n"
    ++ "La mia conoscenza è limitata esclusivamente ai documenti forniti nella mia base dati.\n"
    ++ "Per ottenere risposte accurate, ti suggerisco di formulare domande sugli argomenti che conosco bene.\n\n"
    ++ "I principali argomenti su cui posso aiutarti includono:\n" ++ knowledgeScope ++ "\n\n"
    ++ "Per favore, riformula la tua domanda focalizzandoti su uno di questi temi specifici."

/-- Prompt of `_build_rag_chain` with `context` and `question` substituted. -/
def ragPrompt (context question : String) : String :=
  "Sei \"Agente AI\", un consulente esperto di legislazione alimentare.\n\n"
    ++ "ISTRUZIONI OPERATIVE:\n"
    ++ "1. Analizza attentamente il contesto fornito dai documenti numerati [doc-1], [doc-2], ecc.\n"
    ++ "2. Rispondi ESCLUSIVAMENTE basandoti su questi documenti ufficiali.\n"
    ++ "3. CITAZIONI OBBLIGATORIE: Dopo ogni affermazione specifica, cita immediatamente la fonte usando [doc-N].\n"
    ++ "4. Per affermazioni supportate da più fonti, cita tutte.\n"
    ++ "5. NON raggruppare le citazioni alla fine - devono essere integrate nel testo.\n"
    ++ "6. Se le informazioni non sono sufficienti, dichiaralo.\n\n"
    ++ "CONTESTO DOCUMENTALE:\n" ++ context ++ "\n\n"
    ++ "DOMANDA:\n" ++ question ++ "\n\n"
    ++ "RISPOSTA PROFESSIONALE CON CITAZIONI INLINE:"

/-- The `None`-guard lambda at the end of `_build_classification_chain`:
`lambda x: x.destination if x else "non_pertinente"`. -/
def coerceDestination : Option RouteQuery → Destination
  | some r => r.destination
  | none => Destination.non_pertinente

/-- Embedding of `_build_classification_chain` applied to a query: one
router-LLM structured call followed by the `None` coercion. -/
def classificationChain (env : Env) (query : String) :
    Except String Destination × Counts :=
  ((env.classifyRaw query).map coerceDestination, ⟨1, 0, 0⟩)

/-- Embedding of `_build_conversational_chain` applied to a query: one
main-LLM call whose text output is a plain string (not a dict). -/
def conversationalChain (env : Env) (query : String) :
    Except String RawOutput × Counts :=
  ((env.llmMain (conversationalPrompt query)).map RawOutput.other, ⟨0, 0, 1⟩)

/-- Embedding of `_build_refusal_chain` applied to a query: one main-LLM
call on the template filled with `_format_knowledge_scope()`; no retrieval. -/
def refusalChain (env : Env) (query : String) :
    Except String RawOutput × Counts :=
  ((env.llmMain (refusalPrompt query (formatKnowledgeScope env.knowledgeScope))).map
      RawOutput.other,
   ⟨0, 0, 1⟩)

/-- Embedding of `_build_rag_chain` applied to a query: retrieve, format the
context with `format_docs_with_ids`, generate, then
`.pick(["answer", "source_documents"])` yields a dict holding the answer
and the retrieved documents.  An exception in either call propagates. -/
def ragChain (env : Env) (query : String) : Except String RawOutput × Counts :=
  match env.retrieve query with
  | Except.error e => (Except.error e, ⟨0, 1, 0⟩)
  | Except.ok docs =>
      match env.llmMain (ragPrompt (formatDocsWithIds docs) query) with
      | Except.error e => (Except.error e, ⟨0, 1, 1⟩)
      | Except.ok ans => (Except.ok (RawOutput.dict (some ans) (some docs)), ⟨0, 1, 1⟩)

/-- The `RunnableBranch` of `_build_chain_architecture`: dispatch on the
destination, with the refusal chain as the default branch (taken for
`non_pertinente` and for any label that matches neither test). -/
def branchRun (env : Env) (dest : Destination) (query : String) :
    Except String RawOutput × Counts :=
  match dest with
  | Destination.pertinente => ragChain env query
  | Destination.conversazionale => conversationalChain env query
  | Destination.non_pertinente => refusalChain env query

/-- The `full_chain`: compute the destination via the classification chain,
then run the selected branch; an exception during classification aborts the
chain before any branch runs. -/
def fullChainRun (env : Env) (query : String) : Except String RawOutput × Counts :=
  match classificationChain env query with
  | (Except.error e, c) => (Except.error e, c)
  | (Except.ok dest, c) =>
      let (r, c2) := branchRun env dest query
      (r, c.add c2)

/-! ## The backend entrypoint (`get_response`, `_normalize_response`) and
initialization (`_initialize_retriever`, `_build_chain_architecture`) -/

/-- Fixed result for an empty or whitespace-only query. -/
def invalidQueryResult : AnswerResult :=
  ⟨"Per favore, inserisci una domanda valida.", []⟩

/-- Fixed result when `full_chain` was never built. -/
def unavailableResult : AnswerResult :=
  ⟨"Sistema non disponibile. Riprova più tardi.", []⟩

/-- Fixed result produced by the `except` clause of `get_response`. -/
def techErrorResult : AnswerResult :=
  ⟨"Mi dispiace, si è verificato un errore tecnico. Per favore riprova.", []⟩

/-- Embedding of `_normalize_response`: a dict keeps
`result.get("answer", "Risposta non disponibile.")` and
`result.get("source_documents", [])`; anything else is wrapped as
`{"answer": str(result), "source_documents": []}`. -/
def normalizeResponse : RawOutput → AnswerResult
  | RawOutput.dict a d => ⟨a.getD "Risposta non disponibile.", d.getD []⟩
  | RawOutput.other s => ⟨s, []⟩

/-- The state `get_response` reads: the optional `full_chain` (None when the
architecture was never built). -/
structure Backend where
  fullChain : Option Env

/-- Embedding of `get_response`, also reporting how often each collaborator
was invoked.  `not query or not query.strip()` is equivalent to
`pyStrip query = ""`; the chain is invoked on `query.strip()`; any
exception out of the chain is caught and replaced by the fixed
technical-error result. -/
def get_response (be : Backend) (query : String) : AnswerResult × Counts :=
  if pyStrip query = "" then (invalidQueryResult, Counts.zero)
  else
    match be.fullChain with
    | none => (unavailableResult, Counts.zero)
    | some env =>
        match fullChainRun env (pyStrip query) with
        | (Except.ok raw, c) => (normalizeResponse raw, c)
        | (Except.error _, c) => (techErrorResult, c)

/-- Embedding of `_initialize_retriever`: `None` when loading the vector
store raised (`storageOk = false`) or when `_collection.count()` is zero;
otherwise the compression retriever is available. -/
def initRetriever (storageOk : Bool) (docCount : Nat)
    (retrieveFn : String → Except String (List Doc)) :
    Option (String → Except String (List Doc)) :=
  if storageOk = false then none
  else if docCount = 0 then none
  else some retrieveFn

/-- Embedding of `__init__` + `_build_chain_architecture`: the chains are
built only when the compression retriever is available; otherwise
`full_chain` stays `None`. -/
def mkBackend (storageOk : Bool) (docCount : Nat)
    (classifyRaw : String → Except String (Option RouteQuery))
    (retrieveFn : String → Except String (List Doc))
    (llmMain : String → Except String String)
    (scopeFile : ScopeFile) : Backend :=
  match initRetriever storageOk docCount retrieveFn with
  | none => { fullChain := none }
  | some r =>
      { fullChain := some { classifyRaw := classifyRaw, retrieve := r,
                            llmMain := llmMain,
                            knowledgeScope := loadKnowledgeScope scopeFile } }

/-! ## Example collaborator environments (used to instantiate theorems on
concrete inputs) -/

/-- Environment whose router structured-output call raises an exception. -/
def envRouterError : Env :=
  { classifyRaw := fun _ => Except.error "net",
    retrieve := fun _ => Except.ok [],
    llmMain := fun _ => Except.ok "",
    knowledgeScope := defaultKnowledgeScope }

/-- Environment whose router call yields no `RouteQuery` at all (the `None`
case guarded by the classification chain). -/
def envNoneRoute : Env :=
  { classifyRaw := fun _ => Except.ok none,
    retrieve := fun _ => Except.ok [],
    llmMain := fun _ => Except.ok "",
    knowledgeScope := defaultKnowledgeScope }

/-- Environment classifying every query as conversational. -/
def envConversational : Env :=
  { classifyRaw := fun _ => Except.ok (some ⟨Destination.conversazionale⟩),
    retrieve := fun _ => Except.ok [],
    llmMain := fun _ => Except.ok "Ciao! Come posso aiutarti?",
    knowledgeScope := defaultKnowledgeScope }

/-! ## Helper lemmas -/

theorem get_response_eq (env : Env) (q : String) (hq : pyStrip q ≠ "")
    (res : Except String RawOutput) (c : Counts)
    (h : fullChainRun env (pyStrip q) = (res, c)) :
    get_response ⟨some env⟩ q
      = ((match res with
          | Except.ok raw => normalizeResponse raw
          | Except.error _ => techErrorResult), c) := by
  cases res with
  | ok raw => simp [get_response, hq, h]
  | error e => simp [get_response, hq, h]

theorem fullChainRun_classified (env : Env) (s : String) (r : Option RouteQuery)
    (hcr : env.classifyRaw s = Except.ok r) :
    fullChainRun env s
      = ((branchRun env (coerceDestination r) s).1,
         Counts.add ⟨1, 0, 0⟩ (branchRun env (coerceDestination r) s).2) := by
  rcases hbr : branchRun env (coerceDestination r) s with ⟨res, c2⟩
  simp [fullChainRun, classificationChain, hcr, Except.map, hbr]

theorem docEntriesAux_getD (ds : List Doc) :
    ∀ (start i : Nat), i < ds.length →
      (docEntriesAux start ds).getD i ""
        = docEntry (start + i + 1) (ds.getD i default) := by
  induction ds with
  | nil => intro start i h; simp at h
  | cons d ds ih =>
      intro start i h
      cases i with
      | zero => simp [docEntriesAux]
      | succ j =>
          have hj : j < ds.length := by simpa using h
          have harith : start + 1 + j + 1 = start + (j + 1) + 1 := by omega
          simpa [docEntriesAux, List.getD_cons_succ, harith] using ih (start + 1) j hj

theorem docEntriesAux_length (ds : List Doc) :
    ∀ start : Nat, (docEntriesAux start ds).length = ds.length := by
  induction ds with
  | nil => intro start; simp [docEntriesAux]
  | cons d ds ih => intro start; simp [docEntriesAux, ih]

/-! ## Claim theorems -/

/-- C2: every classification outcome dispatched by the chain is exactly one
of the three closed labels; a missing model response (`None`) is coerced to
`non_pertinente` (out-of-scope), a present structured response contributes
its (schema-constrained) label, and whenever the router call returns a
value the classification chain returns a destination, not an error. -/
theorem classifier_closed_coercion :
    (∀ x : Option RouteQuery,
        coerceDestination x = Destination.pertinente
        ∨ coerceDestination x = Destination.conversazionale
        ∨ coerceDestination x = Destination.non_pertinente)
    ∧ coerceDestination none = Destination.non_pertinente
    ∧ (∀ rq : RouteQuery, coerceDestination (some rq) = rq.destination)
    ∧ (∀ (env : Env) (q : String) (r : Option RouteQuery),
        env.classifyRaw q = Except.ok r →
        (classificationChain env q).1 = Except.ok (coerceDestination r)) := by
  refine ⟨?_, rfl, fun rq => rfl, ?_⟩
  · intro x
    cases x with
    | none => exact Or.inr (Or.inr rfl)
    | some r =>
        obtain ⟨d⟩ := r
        cases d
        · exact Or.inl rfl
        · exact Or.inr (Or.inr rfl)
        · exact Or.inr (Or.inl rfl)
  · intro env q r h
    simp [classificationChain, h, Except.map]

/-- Witness for `classifier_closed_coercion` at a concrete environment whose
router call yields `None`. -/
theorem classifier_closed_coercion_witness :
    envNoneRoute.classifyRaw "Ciao" = Except.ok none
    ∧ (classificationChain envNoneRoute "Ciao").1
        = Except.ok (coerceDestination none) :=
  ⟨rfl, classifier_closed_coercion.2.2.2 envNoneRoute "Ciao" none rfl⟩

/-- C4: an input that is empty or whitespace-only after trimming makes
`get_response` return the fixed invalid-query result, with empty evidence
and zero invocations of classifier, retriever and main LLM. -/
theorem invalid_query_short_circuit :
    ∀ (be : Backend) (query : String), pyStrip query = "" →
      get_response be query = (invalidQueryResult, Counts.zero)
      ∧ invalidQueryResult.source_documents = [] := by
  intro be query h
  exact ⟨by simp [get_response, h], rfl⟩

/-- Witness for `invalid_query_short_circuit` on the whitespace-only query
`"   "` against an uninitialized backend. -/
theorem invalid_query_short_circuit_witness :
    pyStrip "   " = ""
    ∧ get_response ⟨none⟩ "   " = (invalidQueryResult, Counts.zero) :=
  ⟨by decide, (invalid_query_short_circuit ⟨none⟩ "   " (by decide)).1⟩

/-- C7: `_normalize_response` always yields the `{answer, source_documents}`
shape: a dict keeps its `answer` and `source_documents` fields (with the
fixed defaults when a key is missing), and a non-dict value is wrapped as
its stringification together with empty evidence. -/
theorem normalize_response_shape :
    (∀ (a : String) (docs : List Doc),
        normalizeResponse (RawOutput.dict (some a) (some docs))
          = ⟨a, docs⟩)
    ∧ (∀ s : String, normalizeResponse (RawOutput.other s) = ⟨s, []⟩)
    ∧ normalizeResponse (RawOutput.dict none none)
        = ⟨"Risposta non disponibile.", []⟩ :=
  ⟨fun _ _ => rfl, fun _ => rfl, rfl⟩

/-- C8: for every non-empty knowledge scope the refusal rendering bullets
exactly the first 8 topics (so at most 8), and appends the
"... e altri N argomenti correlati" line with `N = length - 8` exactly
when the scope holds more than 8 topics. -/
theorem knowledge_scope_render_cap :
    ∀ (t : String) (ts : List String),
      formatKnowledgeScope (t :: ts)
        = bulletedList ((t :: ts).take 8)
            ++ (if 8 < (t :: ts).length then
                  "\n• ... e altri " ++ toString ((t :: ts).length - 8)
                    ++ " argomenti correlati"
                else "")
      ∧ ((t :: ts).take 8).length = min 8 (t :: ts).length := by
  intro t ts
  constructor
  · by_cases h : 8 < ts.length + 1
    · simp [formatKnowledgeScope, h, String.append_assoc]
    · simp [formatKnowledgeScope, h]
  · simp only [List.length_take, List.length_cons]

/-- C9: at startup load, an absent file, a JSON parse error, a missing
`scope` key and an empty `scope` list all substitute the built-in default
list (which is itself non-empty), while a non-empty list is kept as-is. -/
theorem knowledge_scope_startup_fallback :
    loadKnowledgeScope ScopeFile.absent = defaultKnowledgeScope
    ∧ loadKnowledgeScope ScopeFile.malformed = defaultKnowledgeScope
    ∧ loadKnowledgeScope (ScopeFile.wellFormed none) = defaultKnowledgeScope
    ∧ loadKnowledgeScope (ScopeFile.wellFormed (some [])) = defaultKnowledgeScope
    ∧ (∀ (t : String) (ts : List String),
        loadKnowledgeScope (ScopeFile.wellFormed (some (t :: ts))) = t :: ts)
    ∧ defaultKnowledgeScope ≠ [] := by
  refine ⟨rfl, rfl, rfl, rfl, fun t ts => ?_, by decide⟩
  simp [loadKnowledgeScope]

/-- Witness for `knowledge_scope_startup_fallback`: an absent file loads the
default list. -/
theorem knowledge_scope_startup_fallback_witness :
    loadKnowledgeScope ScopeFile.absent = defaultKnowledgeScope :=
  knowledge_scope_startup_fallback.1

/-- C10: the reload operation never substitutes the built-in default list:
on a read or parse failure the previously loaded scope is kept unchanged,
and a well-formed file with a missing or empty `scope` key replaces the
scope with the empty list. -/
theorem knowledge_scope_reload_no_fallback :
    (∀ current : List String,
        reloadKnowledgeScope ScopeFile.absent current = current)
    ∧ (∀ current : List String,
        reloadKnowledgeScope ScopeFile.malformed current = current)
    ∧ (∀ (s : Option (List String)) (current : List String),
        reloadKnowledgeScope (ScopeFile.wellFormed s) current = s.getD [])
    ∧ (∀ current : List String,
        reloadKnowledgeScope (ScopeFile.wellFormed none) current = [])
    ∧ (∀ current : List String,
        reloadKnowledgeScope (ScopeFile.wellFormed (some [])) current = [])
    ∧ (∀ (file : ScopeFile) (current : List String),
        reloadKnowledgeScope file current = current
        ∨ ∃ s : Option (List String),
            file = ScopeFile.wellFormed s
            ∧ reloadKnowledgeScope file current = s.getD []) := by
  refine ⟨fun c => rfl, fun c => rfl, fun s c => rfl, fun c => rfl, fun c => rfl, ?_⟩
  intro file current
  cases file with
  | absent => exact Or.inl rfl
  | malformed => exact Or.inl rfl
  | wellFormed s => exact Or.inr ⟨s, rfl, rfl⟩

/-- C6: in the RAG strategy the generation context labels the i-th passage
(1-based) of the ordered evidence sequence with index exactly i: the entry
at 0-based position i of the formatted block list is `docEntry (i + 1)` of
the document at position i, the block list has one entry per document, and
for non-empty evidence the context is exactly the joined block list.
Citation markers therefore bind to passages purely by position. -/
theorem rag_context_positional_indexing :
    (∀ (docs : List Doc) (i : Nat), i < docs.length →
        (docEntries docs).getD i "" = docEntry (i + 1) (docs.getD i default))
    ∧ (∀ docs : List Doc, (docEntries docs).length = docs.length)
    ∧ (∀ (d : Doc) (ds : List Doc),
        formatDocsWithIds (d :: ds)
          = String.intercalate "\n\n---\n\n" (docEntries (d :: ds))) := by
  refine ⟨?_, ?_, ?_⟩
  · intro docs i h
    simpa using docEntriesAux_getD docs 0 i h
  · intro docs
    exact docEntriesAux_length docs 0
  · intro d ds
    simp [formatDocsWithIds]

/-- Witness for `rag_context_positional_indexing` on a two-passage list:
the second passage (position 1) is labeled with index 2. -/
theorem rag_context_positional_indexing_witness :
    (1 : Nat) < ([⟨"testo uno", some "dir/a.pdf"⟩, ⟨"testo due", none⟩] : List Doc).length
    ∧ (docEntries [⟨"testo uno", some "dir/a.pdf"⟩, ⟨"testo due", none⟩]).getD 1 ""
        = docEntry (1 + 1)
            (([⟨"testo uno", some "dir/a.pdf"⟩, ⟨"testo due", none⟩] : List Doc).getD 1
              default) :=
  ⟨by decide,
   rag_context_positional_indexing.1
     [⟨"testo uno", some "dir/a.pdf"⟩, ⟨"testo due", none⟩] 1 (by decide)⟩

/-- C5: when the retriever is unavailable — in particular whenever the
vector index holds zero documents — `full_chain` is never built and every
non-empty query gets the fixed "system unavailable" result with empty
evidence and zero collaborator invocations. -/
theorem unavailable_pipeline_short_circuit :
    (∀ (storageOk : Bool) (retrieveFn : String → Except String (List Doc)),
        initRetriever storageOk 0 retrieveFn = none)
    ∧ (∀ (storageOk : Bool) (docCount : Nat)
          (classifyRaw : String → Except String (Option RouteQuery))
          (retrieveFn : String → Except String (List Doc))
          (llmMain : String → Except String String)
          (scopeFile : ScopeFile) (query : String),
        initRetriever storageOk docCount retrieveFn = none →
        pyStrip query ≠ "" →
        get_response
            (mkBackend storageOk docCount classifyRaw retrieveFn llmMain scopeFile)
            query
          = (unavailableResult, Counts.zero))
    ∧ unavailableResult.source_documents = [] := by
  refine ⟨?_, ?_, rfl⟩
  · intro storageOk retrieveFn
    cases storageOk <;> simp [initRetriever]
  · intro storageOk docCount classifyRaw retrieveFn llmMain scopeFile query h hq
    simp [mkBackend, h, get_response, hq]

/-- Witness for `unavailable_pipeline_short_circuit` on a backend built over
an index with zero documents and the non-empty query `"test"`. -/
theorem unavailable_pipeline_short_circuit_witness :
    initRetriever true 0 (fun _ => Except.ok []) = none
    ∧ pyStrip "test" ≠ ""
    ∧ get_response
        (mkBackend true 0 (fun _ => Except.ok none) (fun _ => Except.ok [])
          (fun _ => Except.ok "") ScopeFile.absent)
        "test"
        = (unavailableResult, Counts.zero) :=
  ⟨rfl, by decide,
   unavailable_pipeline_short_circuit.2.1 true 0 (fun _ => Except.ok none)
     (fun _ => Except.ok []) (fun _ => Except.ok "") ScopeFile.absent "test" rfl
     (by decide)⟩

/-- C3: with the pipeline initialized and a non-empty query, any exception
escaping the chain (classification, dispatch or a strategy) is caught at
`get_response` and converted into the fixed technical-error result with
empty evidence; the entrypoint returns a value, never re-raises. -/
theorem router_catches_chain_exceptions :
    ∀ (env : Env) (query : String) (e : String) (c : Counts),
      pyStrip query ≠ "" →
      fullChainRun env (pyStrip query) = (Except.error e, c) →
      get_response ⟨some env⟩ query = (techErrorResult, c)
      ∧ techErrorResult.source_documents = [] := by
  intro env query e c hq h
  exact ⟨by rw [get_response_eq env query hq (Except.error e) c h], rfl⟩

/-- Witness for `router_catches_chain_exceptions`: a router call that raises
`"net"` is converted into the fixed technical-error result. -/
theorem router_catches_chain_exceptions_witness :
    pyStrip "ciao" ≠ ""
    ∧ fullChainRun envRouterError (pyStrip "ciao") = (Except.error "net", ⟨1, 0, 0⟩)
    ∧ get_response ⟨some envRouterError⟩ "ciao" = (techErrorResult, ⟨1, 0, 0⟩) :=
  ⟨by decide, rfl,
   (router_catches_chain_exceptions envRouterError "ciao" "net" ⟨1, 0, 0⟩
     (by decide) rfl).1⟩

/-- C1: for a non-empty query on an initialized pipeline, if the classified
destination is `conversazionale` or `non_pertinente` then the entrypoint
result has empty evidence and the retriever is never invoked; conversely,
non-empty evidence can arise only when the destination was `pertinente`
and the retrieval call succeeded, the evidence being exactly the retrieved
documents. -/
theorem router_non_relevant_empty_evidence :
    ∀ (env : Env) (query : String) (dest : Destination),
      pyStrip query ≠ "" →
      (classificationChain env (pyStrip query)).1 = Except.ok dest →
      ((dest = Destination.conversazionale ∨ dest = Destination.non_pertinente) →
          (get_response ⟨some env⟩ query).1.source_documents = []
          ∧ (get_response ⟨some env⟩ query).2.retrieverCalls = 0)
      ∧ ((get_response ⟨some env⟩ query).1.source_documents ≠ [] →
          dest = Destination.pertinente
          ∧ env.retrieve (pyStrip query)
              = Except.ok ((get_response ⟨some env⟩ query).1.source_documents)) := by
  intro env query dest hq hclass
  rcases hcr : env.classifyRaw (pyStrip query) with e | r
  · simp [classificationChain, hcr, Except.map] at hclass
  · have hdest : coerceDestination r = dest := by
      simpa [classificationChain, hcr, Except.map] using hclass
    have hfull := fullChainRun_classified env (pyStrip query) r hcr
    rw [hdest] at hfull
    cases dest with
    | conversazionale =>
        rcases hm : env.llmMain (conversationalPrompt (pyStrip query)) with me | mt
        · have hb : branchRun env Destination.conversazionale (pyStrip query)
              = (Except.error me, ⟨0, 0, 1⟩) := by
            simp [branchRun, conversationalChain, hm, Except.map]
          rw [hb] at hfull
          have hgr : get_response ⟨some env⟩ query = (techErrorResult, ⟨1, 0, 1⟩) :=
            get_response_eq env query hq (Except.error me) ⟨1, 0, 1⟩ hfull
          refine ⟨fun _ => ⟨(congrArg (fun p => p.1.source_documents) hgr).trans rfl,
            (congrArg (fun p => p.2.retrieverCalls) hgr).trans rfl⟩, fun hne => ?_⟩
          rw [hgr] at hne
          exact absurd rfl hne
        · have hb : branchRun env Destination.conversazionale (pyStrip query)
              = (Except.ok (RawOutput.other mt), ⟨0, 0, 1⟩) := by
            simp [branchRun, conversationalChain, hm, Except.map]
          rw [hb] at hfull
          have hgr : get_response ⟨some env⟩ query = (⟨mt, []⟩, ⟨1, 0, 1⟩) :=
            get_response_eq env query hq (Except.ok (RawOutput.other mt)) ⟨1, 0, 1⟩ hfull
          refine ⟨fun _ => ⟨(congrArg (fun p => p.1.source_documents) hgr).trans rfl,
            (congrArg (fun p => p.2.retrieverCalls) hgr).trans rfl⟩, fun hne => ?_⟩
          rw [hgr] at hne
          exact absurd rfl hne
    | non_pertinente =>
        rcases hm : env.llmMain
            (refusalPrompt (pyStrip query) (formatKnowledgeScope env.knowledgeScope))
          with me | mt
        · have hb : branchRun env Destination.non_pertinente (pyStrip query)
              = (Except.error me, ⟨0, 0, 1⟩) := by
            simp [branchRun, refusalChain, hm, Except.map]
          rw [hb] at hfull
          have hgr : get_response ⟨some env⟩ query = (techErrorResult, ⟨1, 0, 1⟩) :=
            get_response_eq env query hq (Except.error me) ⟨1, 0, 1⟩ hfull
          refine ⟨fun _ => ⟨(congrArg (fun p => p.1.source_documents) hgr).trans rfl,
            (congrArg (fun p => p.2.retrieverCalls) hgr).trans rfl⟩, fun hne => ?_⟩
          rw [hgr] at hne
          exact absurd rfl hne
        · have hb : branchRun env Destination.non_pertinente (pyStrip query)
              = (Except.ok (RawOutput.other mt), ⟨0, 0, 1⟩) := by
            simp [branchRun, refusalChain, hm, Except.map]
          rw [hb] at hfull
          have hgr : get_response ⟨some env⟩ query = (⟨mt, []⟩, ⟨1, 0, 1⟩) :=
            get_response_eq env query hq (Except.ok (RawOutput.other mt)) ⟨1, 0, 1⟩ hfull
          refine ⟨fun _ => ⟨(congrArg (fun p => p.1.source_documents) hgr).trans rfl,
            (congrArg (fun p => p.2.retrieverCalls) hgr).trans rfl⟩, fun hne => ?_⟩
          rw [hgr] at hne
          exact absurd rfl hne
    | pertinente =>
        refine ⟨fun hcontra => ?_, fun hne => ?_⟩
        · rcases hcontra with h | h <;> exact Destination.noConfusion h
        · rcases hr : env.retrieve (pyStrip query) with re | docs
          · have hb : branchRun env Destination.pertinente (pyStrip query)
                = (Except.error re, ⟨0, 1, 0⟩) := by
              simp [branchRun, ragChain, hr]
            rw [hb] at hfull
            have hgr : get_response ⟨some env⟩ query = (techErrorResult, ⟨1, 1, 0⟩) :=
              get_response_eq env query hq (Except.error re) ⟨1, 1, 0⟩ hfull
            rw [hgr] at hne
            exact absurd rfl hne
          · rcases hm : env.llmMain (ragPrompt (formatDocsWithIds docs) (pyStrip query))
              with me | ans
            · have hb : branchRun env Destination.pertinente (pyStrip query)
                  = (Except.error me, ⟨0, 1, 1⟩) := by
                simp [branchRun, ragChain, hr, hm]
              rw [hb] at hfull
              have hgr : get_response ⟨some env⟩ query = (techErrorResult, ⟨1, 1, 1⟩) :=
                get_response_eq env query hq (Except.error me) ⟨1, 1, 1⟩ hfull
              rw [hgr] at hne
              exact absurd rfl hne
            · have hb : branchRun env Destination.pertinente (pyStrip query)
                  = (Except.ok (RawOutput.dict (some ans) (some docs)), ⟨0, 1, 1⟩) := by
                simp [branchRun, ragChain, hr, hm]
              rw [hb] at hfull
              have hgr : get_response ⟨some env⟩ query = (⟨ans, docs⟩, ⟨1, 1, 1⟩) :=
                get_response_eq env query hq
                  (Except.ok (RawOutput.dict (some ans) (some docs))) ⟨1, 1, 1⟩ hfull
              refine ⟨rfl, ?_⟩
              rw [hgr]

/-- Witness for `router_non_relevant_empty_evidence`: a query classified as
conversational yields empty evidence and zero retriever invocations. -/
theorem router_non_relevant_empty_evidence_witness :
    pyStrip "Ciao" ≠ ""
    ∧ (classificationChain envConversational (pyStrip "Ciao")).1
        = Except.ok Destination.conversazionale
    ∧ (get_response ⟨some envConversational⟩ "Ciao").1.source_documents = []
    ∧ (get_response ⟨some envConversational⟩ "Ciao").2.retrieverCalls = 0 := by
  have hq : pyStrip "Ciao" ≠ "" := by decide
  have hclass : (classificationChain envConversational (pyStrip "Ciao")).1
      = Except.ok Destination.conversazionale := rfl
  have h := (router_non_relevant_empty_evidence envConversational "Ciao"
      Destination.conversazionale hq hclass).1 (Or.inl rfl)
  exact ⟨hq, hclass, h.1, h.2⟩

end RagEngine
